import Mathlib

/-!
Shallow embedding of `src/extension.ts` of the discord-vscode extension
(a Discord Rich Presence client for VS Code).

The module-level mutable variables of the TypeScript file (`rpc`, `config`,
`reconnecting`, `reconnectCounter`, `lastKnownFile`, `activity`,
`activityTimer`, `statusBarIcon`) become fields of an explicit state record
`ExtensionState`; each event handler becomes a state-transition function.
The editor host (VS Code) and the file system are modelled by a read-only
environment record `EditorEnv`.  User-visible notices
(`window.showInformationMessage` / `window.showErrorMessage`) are returned
as lists of strings.  JavaScript string operations used by the source
(`String.prototype.replace` with a string pattern replaces only the first
occurrence, `includes`, `padEnd`, truthiness of strings and numbers) are
modelled by small `js*` helpers.
-/

/-- Split a character list at the first occurrence of `needle`: returns the
part before the match and the part after it (structural recursion, so that
concrete instances reduce in the kernel). -/
def findSplit (needle : List Char) : List Char → Option (List Char × List Char)
  | [] => if List.isPrefixOf needle [] then some ([], []) else none
  | h :: t =>
    if List.isPrefixOf needle (h :: t) then some ([], (h :: t).drop needle.length)
    else
      match findSplit needle t with
      | some (pre, post) => some (h :: pre, post)
      | none => none

/-- JS `haystack.includes(needle)` (substring test). -/
def jsIncludes (haystack needle : String) : Bool :=
  (findSplit needle.toList haystack.toList).isSome

/-- JS `s.replace(pat, rep)` with a string pattern: replaces only the FIRST
occurrence of `pat` in `s` (`pat` is a non-empty literal at every call site
of the source). -/
def jsReplaceFirst (s pat rep : String) : String :=
  match findSplit pat.toList s.toList with
  | none => s
  | some (pre, post) => String.mk (pre ++ rep.toList ++ post)

/-- JS truthiness of a nullable number: `null`/`undefined` and `0` are falsy. -/
def jsTruthyNat (o : Option Nat) : Bool :=
  match o with
  | none => false
  | some n => n ≠ 0

/-- JS `languageId.padEnd(2, zwsp)`: pad on the right with U+200B up to length 2. -/
def jsPadEnd2 (s : String) : String :=
  if s.length ≥ 2 then s else s ++ String.mk (List.replicate (2 - s.length) (Char.ofNat 0x200B))

/-- The `emptySpaces` constant of `generateDetails`: two zero-width spaces. -/
def emptySpaces : String := String.mk [Char.ofNat 0x200B, Char.ofNat 0x200B]

/-- Split a character list on a separator character (structural version of
`String.split`, so that concrete instances reduce in the kernel). -/
def splitOnChar (c : Char) : List Char → List (List Char)
  | [] => [[]]
  | h :: t =>
    match splitOnChar c t with
    | [] => [[h]]
    | x :: xs => if h = c then [] :: x :: xs else (h :: x) :: xs

/-- Node `path.sep`, fixed to the POSIX separator `'/'` in this model. -/
def pathSep : String := "/"

/-- JS `p.split(sep)` with the single-character path separator. -/
def splitPath (p : String) : List String := (splitOnChar '/' p.toList).map String.mk

/-- JS `list.join(sep)` with the path separator. -/
def joinPath (l : List String) : String := String.intercalate pathSep l

/-- JS `s.toUpperCase()` (structural version of `String.toUpper`). -/
def jsToUpper (s : String) : String := String.mk (s.toList.map Char.toUpper)

/-- Node `path.basename`: last path component. -/
def basename (p : String) : String := (splitPath p).getLastD ""

/-- Node `path.parse(p).dir`: everything before the last separator
(the root-only edge case `parse('/x').dir = '/'` is collapsed to `""`;
it is only ever consumed through its last component, which agrees). -/
def parseDir (p : String) : String := joinPath (splitPath p).dropLast

/-- JS `Number.prototype.toLocaleString()` on a natural number in the default
en-US locale: decimal digits grouped by three with commas.  Helper working on
the reversed digit list. -/
def commaRev : List Char → List Char
  | a :: b :: c :: d :: rest => a :: b :: c :: ',' :: commaRev (d :: rest)
  | l => l

/-- JS `n.toLocaleString()` for a natural number. -/
def toLocaleString (n : Nat) : String :=
  String.mk (commaRev (toString n).toList.reverse).reverse

/-- JS `Number.prototype.toFixed(2)` on a non-negative value, modelled as
round-half-up to two decimal places. -/
def toFixed2 (q : ℚ) : String :=
  let n : Nat := (⌊q * 100 + 1 / 2⌋).toNat
  toString (n / 100) ++ "." ++ (if n % 100 < 10 then "0" ++ toString (n % 100) else toString (n % 100))

/-- The `while (size > 1000) { currentDivision++; size = size / 1000; }` loop of
`getFileDetails`, with explicit fuel (the loop divides by 1000 each step, so
`fuel = originalSize` is always enough). -/
def sizeLoop : Nat → ℚ → Nat → ℚ × Nat
  | 0, size, currentDivision => (size, currentDivision)
  | fuel + 1, size, currentDivision =>
    if size > 1000 then sizeLoop fuel (size / 1000) (currentDivision + 1)
    else (size, currentDivision)

/-- The file-size rendering of `getFileDetails` (lines 374-386 of the source):
`sizes = [' bytes', 'kb', 'mb', 'gb', 'tb']`; if the byte count exceeds 1000 it
is divided by 1000 once, then repeatedly while still above 1000, and rendered
with `toFixed(2)`; otherwise the raw integer is rendered with no rounding. -/
def formatFileSize (originalSize : Nat) : String :=
  let sizes : List String := [" bytes", "kb", "mb", "gb", "tb"]
  if originalSize > 1000 then
    let r := sizeLoop originalSize ((originalSize : ℚ) / 1000) 1
    toFixed2 r.1 ++ sizes.getD r.2 "undefined"
  else
    toString originalSize ++ sizes.getD 0 "undefined"

/-- The workspace configuration keys under `discord.*` read by the source. -/
structure Config where
  enabled : Bool
  clientID : String
  silent : Bool
  reconnectThreshold : Nat
  workspaceElapsedTime : Bool
  detailsDebugging : String
  detailsEditing : String
  detailsIdle : String
  lowerDetailsDebugging : String
  lowerDetailsEditing : String
  lowerDetailsIdle : String
  lowerDetailsNotFound : String
  largeImage : String
  largeImageIdle : String
  smallImage : String
  deriving DecidableEq, Repr

/-- The parts of `window.activeTextEditor` (document, selection, workspace
folder resolution) read by the source. Cursor coordinates are 0-based as in
the VS Code API. -/
structure EditorDoc where
  fileName : String
  languageId : String
  lineCount : Nat
  selectionLine : Nat
  selectionCharacter : Nat
  workspaceFolderName : Option String
  relativePath : String
  deriving DecidableEq, Repr

/-- The read-only editor/host environment sampled by the source:
`window.activeTextEditor`, `debug.activeDebugSession`, `env.appName`,
`new Date().getTime()`, and `statSync(..).size`.

`extensionLookup` and `knownLanguages` are modelled from the spec: the
`data/languages.json` table (`knownExtentions` with its extension-suffix and
regex patterns, and `knownLanguages`) is not under `src/`, so the lookup of a
base file name in that table is abstracted as a function returning the
resolved image key, and the recognized language ids as a list. -/
structure EditorEnv where
  activeTextEditor : Option EditorDoc
  debugActive : Bool
  appName : String
  now : Nat
  fileSizes : String → Nat
  extensionLookup : String → Option String
  knownLanguages : List String

/-- The activity payload object assembled by `setActivity`.
(The source's `instance` field is named `instanceFlag` here because `instance`
is a Lean keyword.) -/
structure Activity where
  details : String
  state : String
  startTimestamp : Option Nat
  largeImageKey : String
  largeImageText : String
  smallImageKey : String
  smallImageText : String
  instanceFlag : Bool
  deriving DecidableEq, Repr

/-- Spreading `...activity` when `activity` is still `undefined` yields an
object with only the three overwritten fields; the remaining fields are
modelled as empty defaults (this situation is unreachable in the real control
flow, since the partial-update branch requires a previously built activity). -/
def emptyActivity : Activity :=
  { details := "", state := "", startTimestamp := none, largeImageKey := "",
    largeImageText := "", smallImageKey := "", smallImageText := "", instanceFlag := false }

/-- The status bar item created by `createButton`: its `text`, its `command`,
and whether `show()` was called on it. -/
structure ButtonState where
  text : String
  command : String
  shown : Bool
  deriving DecidableEq, Repr

/-- The module-level mutable state of `extension.ts`.  `rpc : Bool` records
whether the `rpc` variable holds a client (non-null); `activityTimer : Bool`
whether the refresh interval handle is set. -/
structure ExtensionState where
  rpc : Bool
  config : Config
  reconnecting : Bool
  reconnectCounter : Nat
  lastKnownFile : Option String
  activity : Option Activity
  activityTimer : Bool
  statusBarIcon : Option ButtonState
  deriving DecidableEq, Repr

/-- The error object given to the `rpc.login(..).catch` handler: its `message`
(inspected for `ENOENT`) and its `toString()` rendering. -/
structure JsError where
  message : String
  str : String
  deriving DecidableEq, Repr

/-- The result record of `getFileDetails`. -/
structure FileDetail where
  size : Option String
  totalLines : Option String
  currentLine : Option String
  currentColumn : Option String
  deriving DecidableEq, Repr

/-- Embeds `getFileDetails(rawString)` (source lines 356-389), instrumented with the
number of `statSync` calls it performs (second component).  Each fact is
computed only when its placeholder occurs in the template; the stat call
happens only inside the `{filesize}` branch.  The source reads
`window.activeTextEditor`, which is always present at its call sites and is
passed here explicitly as `ed`. -/
def getFileDetails (rawString : String) (env : EditorEnv) (ed : EditorDoc) :
    FileDetail × Nat :=
  if rawString = "" then
    ({ size := none, totalLines := none, currentLine := none, currentColumn := none }, 0)
  else
    let totalLines := if jsIncludes rawString "{totallines}" then
        some (toLocaleString ed.lineCount) else none
    let currentLine := if jsIncludes rawString "{currentline}" then
        some (toLocaleString (ed.selectionLine + 1)) else none
    let currentColumn := if jsIncludes rawString "{currentcolumn}" then
        some (toLocaleString (ed.selectionCharacter + 1)) else none
    let sizeAndCalls :=
      if jsIncludes rawString "{filesize}" then
        (some (formatFileSize (env.fileSizes ed.fileName)), 1)
      else (none, 0)
    ({ size := sizeAndCalls.1, totalLines := totalLines,
       currentLine := currentLine, currentColumn := currentColumn }, sizeAndCalls.2)

/-- The expression `largeImageKey ? largeImageKey.image || largeImageKey : 'txt'`:
the resolved key is an `Option String` whose payload is already the
`.image`-or-itself value; a missing or empty (falsy) key yields `"txt"`. -/
def jsResolveKey (k : Option String) : String :=
  match k with
  | none => "txt"
  | some v => if v = "" then "txt" else v

/-- The `smallImageKey` expression of `setActivity`:
debug session → `'debug'`; Insiders app name → `'vscode-insiders'`; else `'vscode'`. -/
def smallImageKeyOf (env : EditorEnv) : String :=
  if env.debugActive then "debug"
  else if jsIncludes env.appName "Insiders" then "vscode-insiders"
  else "vscode"

/-- Models `if (x) r = r.replace(pat, x)` for a nullable string fact (JS strings are
falsy when empty). -/
def jsCondReplace (r pat : String) (v : Option String) : String :=
  match v with
  | some s => if s = "" then r else jsReplaceFirst r pat s
  | none => r

/-- Embeds `generateDetails(debugging, editing, idling, largeImageKey)` (source lines
284-354).  The three template arguments are passed as the already-fetched
config strings (the source passes config keys and fetches them itself). -/
def generateDetails (debugging editing idling : String) (largeImageKey : Option String)
    (env : EditorEnv) (cfg : Config) : String :=
  let idleString := jsReplaceFirst idling "{null}" emptySpaces
  match env.activeTextEditor with
  | none => idleString
  | some ed =>
    let fileName := basename ed.fileName
    let dirName := (splitPath (parseDir ed.fileName)).getLastD ""
    let checkState := ed.workspaceFolderName.isSome
    let fullDirName : Option String :=
      ed.workspaceFolderName.map (fun name =>
        let relativePath := (splitPath ed.relativePath).dropLast
        name ++ pathSep ++ joinPath relativePath)
    let rawTemplate := if env.debugActive then debugging else editing
    let fd := (getFileDetails rawTemplate env ed).1
    let r0 := jsReplaceFirst rawTemplate "{null}" emptySpaces
    let r1 := jsReplaceFirst r0 "{filename}" fileName
    let r2 := jsReplaceFirst r1 "{dirname}" dirName
    let r3 := jsReplaceFirst r2 "{fulldirname}" (fullDirName.getD "null")
    let r4 := jsReplaceFirst r3 "{workspace}"
      (if checkState then ed.workspaceFolderName.getD ""
       else jsReplaceFirst cfg.lowerDetailsNotFound "{null}" emptySpaces)
    let r5 := jsReplaceFirst r4 "{lang}" (jsResolveKey largeImageKey)
    let r6 := jsReplaceFirst r5 "{LANG}" (jsToUpper (jsResolveKey largeImageKey))
    let r7 := jsCondReplace r6 "{totallines}" fd.totalLines
    let r8 := jsCondReplace r7 "{filesize}" fd.size
    let r9 := jsCondReplace r8 "{currentline}" fd.currentLine
    let r10 := jsCondReplace r9 "{currentcolumn}" fd.currentColumn
    r10

/-- The full-rebuild path of `setActivity` (source lines 245-281): everything
after the early-returning partial-update branch. -/
def setActivityFull (workspaceElapsedTime : Bool) (env : EditorEnv)
    (s : ExtensionState) : ExtensionState :=
  let lastKnownFile := env.activeTextEditor.map (·.fileName)
  let largeImageKey : Option String :=
    match env.activeTextEditor with
    | some ed =>
      match env.extensionLookup (basename ed.fileName) with
      | some image => some image
      | none =>
        if env.knownLanguages.any (fun l => l = ed.languageId) then some ed.languageId else none
    | none => some "vscode-big"
  let previousTimestamp : Option Nat := s.activity.bind (·.startTimestamp)
  let startTimestamp : Option Nat :=
    if env.activeTextEditor.isSome && jsTruthyNat previousTimestamp && workspaceElapsedTime
    then previousTimestamp
    else if env.activeTextEditor.isSome then some env.now else none
  let a : Activity := {
    details := generateDetails s.config.detailsDebugging s.config.detailsEditing
      s.config.detailsIdle largeImageKey env s.config,
    state := generateDetails s.config.lowerDetailsDebugging s.config.lowerDetailsEditing
      s.config.lowerDetailsIdle largeImageKey env s.config,
    startTimestamp := startTimestamp,
    largeImageKey := jsResolveKey largeImageKey,
    largeImageText :=
      match env.activeTextEditor with
      | some ed =>
        let t := jsReplaceFirst
          (jsReplaceFirst s.config.largeImage "{lang}" (jsResolveKey largeImageKey))
          "{LANG}" (jsToUpper (jsResolveKey largeImageKey))
        if t = "" then jsPadEnd2 ed.languageId else t
      | none => s.config.largeImageIdle,
    smallImageKey := smallImageKeyOf env,
    smallImageText := jsReplaceFirst s.config.smallImage "{appname}" env.appName,
    instanceFlag := false }
  { s with lastKnownFile := lastKnownFile, activity := some a }

/-- Embeds `setActivity(workspaceElapsedTime = false)` (source lines 228-282).
Returns unchanged state when `rpc` is null; takes the cheap partial-update
branch when an editor is focused on the `lastKnownFile`; otherwise rebuilds the
whole activity.  In the partial branch the source passes `this.largeImageKey`
to `generateDetails`; `this` is `undefined` in that position, so the argument
is `none`. -/
def setActivity (workspaceElapsedTime : Bool) (env : EditorEnv)
    (s : ExtensionState) : ExtensionState :=
  if s.rpc = false then s
  else
    match env.activeTextEditor with
    | some ed =>
      if s.lastKnownFile = some ed.fileName then
        let base := s.activity.getD emptyActivity
        { s with activity := some { base with
            details := generateDetails s.config.detailsDebugging s.config.detailsEditing
              s.config.detailsIdle none env s.config,
            state := generateDetails s.config.lowerDetailsDebugging
              s.config.lowerDetailsEditing s.config.lowerDetailsIdle none env s.config,
            smallImageKey := smallImageKeyOf env } }
      else setActivityFull workspaceElapsedTime env s
    | none => setActivityFull workspaceElapsedTime env s

/-- Embeds `createButton(isReconnecting?)` (source lines 176-207).  Both branches set
the same `text` and `command`; a fresh icon is additionally shown.  The
attempts-remaining text uses `reconnectThreshold - reconnectCounter` with JS
number subtraction (modelled in `Int`) and pluralizes except at exactly 1. -/
def createButton (isReconnecting : Bool) (s : ExtensionState) : ExtensionState :=
  let attempts : Int := (s.config.reconnectThreshold : Int) - (s.reconnectCounter : Int)
  let text :=
    if isReconnecting then
      "$(issue-reopened) Reconnecting: " ++ toString attempts ++ " attempt" ++
        (if attempts = 1 then "" else "s") ++ " left"
    else "$(plug) Reconnect to Discord"
  let command := if isReconnecting then "" else "discord.reconnect"
  match s.statusBarIcon with
  | none => { s with statusBarIcon := some { text := text, command := command, shown := true } }
  | some b => { s with statusBarIcon := some { text := text, command := command, shown := b.shown } }

/-- Embeds `destroyRPC()` (source lines 210-225): a no-op when `rpc` is already null;
otherwise stops reconnecting, clears and nulls the activity timer, destroys
and nulls the client, and nulls `lastKnownFile`. -/
def destroyRPC (s : ExtensionState) : ExtensionState :=
  if s.rpc = false then s
  else { s with reconnecting := false, activityTimer := false, rpc := false,
                lastKnownFile := none }

/-- The synchronous effect of `initRPC`: `rpc = new Client(..)` (the attached
`ready` and login-failure continuations are modelled as the separate handlers
below). -/
def initRPCState (s : ExtensionState) : ExtensionState := { s with rpc := true }

/-- The failure-announcement tail of the login `catch` handler (source lines
166-171): unless silent, show `'No Discord Client detected!'` for `ENOENT`
errors and the raw error text otherwise, and call `createButton()`. -/
def announceFailure (error : JsError) (s : ExtensionState) :
    ExtensionState × List String :=
  if s.config.silent then (s, [])
  else
    let msg := if jsIncludes error.message "ENOENT" then "No Discord Client detected!"
      else "Couldn't connect to Discord via RPC: " ++ error.str
    (createButton false s, [msg])

/-- The `rpc.login(..).catch` handler of `initRPC` (source lines 147-172).
Returns the new state, whether a retry login attempt was issued
(`initRPC` re-invoked), and the notices shown. -/
def handleLoginFailure (error : JsError) (s : ExtensionState) :
    ExtensionState × Bool × List String :=
  if s.reconnecting then
    if s.config.reconnectThreshold ≤ s.reconnectCounter then
      let s1 := createButton false s
      let s2 := destroyRPC s1
      let r := announceFailure error s2
      (r.1, false, r.2)
    else
      let s1 := { s with reconnectCounter := s.reconnectCounter + 1 }
      let s2 := createButton true s1
      (initRPCState s2, true, [])
  else
    let r := announceFailure error s
    (r.1, false, r.2)

/-- The `rpc.once('ready', ..)` handler of `initRPC` (source lines 100-144):
announce a loud reconnect unless silent, dispose the status bar icon, stop
reconnecting, clear any stale timer, reset the reconnect counter, build the
activity once, and start the 15-second refresh interval. -/
def handleReady (loud : Bool) (env : EditorEnv) (s : ExtensionState) :
    ExtensionState × List String :=
  let notices := if loud && !s.config.silent then ["Successfully reconnected to Discord RPC"] else []
  let s1 := { s with statusBarIcon := none }
  let s2 := { s1 with reconnecting := false }
  let s3 := { s2 with activityTimer := false }
  let s4 := { s3 with reconnectCounter := 0 }
  let s5 := setActivity false env s4
  let s6 := { s5 with activityTimer := true }
  (s6, notices)

/-- The `rpc.transport.once('close', ..)` handler (source lines 126-135):
if still enabled, tear down, mark reconnecting, re-init the client and show
the attempts-remaining button. -/
def handleTransportClose (s : ExtensionState) : ExtensionState :=
  if s.config.enabled = false then s
  else
    let s1 := destroyRPC s
    let s2 := { s1 with reconnecting := true }
    let s3 := initRPCState s2
    createButton true s3

/-- The `discord.reconnect` command handler (source lines 75-82): best-effort
teardown, re-init, an informational notice unless silent, and — only if a
status bar icon already exists — its text set to `'$(pulse) Reconnecting'`. -/
def reconnectCommand (s : ExtensionState) : ExtensionState × List String :=
  let s1 := if s.rpc then destroyRPC s else s
  let s2 := initRPCState s1
  let notices := if !s.config.silent then ["Reconnecting to Discord RPC"] else []
  let s3 :=
    match s2.statusBarIcon with
    | some b => { s2 with statusBarIcon := some { b with text := "$(pulse) Reconnecting" } }
    | none => s2
  (s3, notices)

/-- A sequence of consecutive login failures, applied in order. -/
def runFailures : List JsError → ExtensionState → ExtensionState
  | [], s => s
  | e :: es, s => runFailures es (handleLoginFailure e s).1

/-- How many of the failures in the sequence issued a retry login attempt. -/
def totalRetries : List JsError → ExtensionState → Nat
  | [], _ => 0
  | e :: es, s =>
    (if (handleLoginFailure e s).2.1 then 1 else 0) + totalRetries es (handleLoginFailure e s).1

/-- One tick of the 15-second refresh interval (source lines 138-143): the
config is re-fetched (a no-op here, the modelled config is already current)
and `setActivity` is called with the `workspaceElapsedTime` setting. -/
def timerTick (env : EditorEnv) (s : ExtensionState) : ExtensionState :=
  setActivity s.config.workspaceElapsedTime env s

/-- Pure-`Nat` shadow of `sizeLoop`: after `d` divisions the running size is
`orig / 1000 ^ d`, and the loop guard `size > 1000` is `1000 ^ (d + 1) < orig`,
so only the division count needs tracking.  Used (via `sizeLoop_eq_N`) to
evaluate the rational loop inside the kernel. -/
def sizeLoopN : Nat → Nat → Nat → Nat
  | 0, _, d => d
  | fuel + 1, orig, d => if 1000 ^ (d + 1) < orig then sizeLoopN fuel orig (d + 1) else d

/-- Concrete sample data used by the witness theorems below: a config with
`reconnectThreshold = 3`, not silent, elapsed-time mode off. -/
def sampleConfig : Config := {
  enabled := true, clientID := "498", silent := false, reconnectThreshold := 3,
  workspaceElapsedTime := false,
  detailsDebugging := "Debugging {filename}",
  detailsEditing := "Editing {filename}",
  detailsIdle := "Idling",
  lowerDetailsDebugging := "Debugging: {fulldirname}",
  lowerDetailsEditing := "Workspace: {workspace}",
  lowerDetailsIdle := "Idling {null}",
  lowerDetailsNotFound := "No workspace {null}",
  largeImage := "Editing a {LANG} file",
  largeImageIdle := "Idle",
  smallImage := "{appname}" }

/-- A sample focused editor: a Python file inside workspace `ws`. -/
def sampleDoc : EditorDoc := {
  fileName := "/ws/sub/a.py", languageId := "python",
  lineCount := 120, selectionLine := 4, selectionCharacter := 9,
  workspaceFolderName := some "ws", relativePath := "sub/a.py" }

/-- A sample host environment around `sampleDoc`. -/
def sampleEnv : EditorEnv := {
  activeTextEditor := some sampleDoc, debugActive := false,
  appName := "Visual Studio Code", now := 999, fileSizes := fun _ => 800,
  extensionLookup := fun n => if n = "a.py" then some "python" else none,
  knownLanguages := ["python", "rust"] }

/-- A sample generic (non-ENOENT) login error. -/
def errGeneric : JsError := { message := "boom", str := "Error: boom" }

/-- A sample ENOENT login error (no Discord client listening). -/
def errNoClient : JsError :=
  { message := "connect ENOENT /tmp/discord-ipc-0", str := "Error: connect ENOENT /tmp/discord-ipc-0" }

/-- The state at the start of a reconnect sequence: a fresh client logging in,
`reconnecting` set, counter 0. -/
def startState : ExtensionState := {
  rpc := true, config := sampleConfig,
  reconnecting := true, reconnectCounter := 0, lastKnownFile := none,
  activity := none, activityTimer := false, statusBarIcon := none }

/-- A previously built activity, as left by an earlier full rebuild. -/
def builtActivity : Activity := {
  details := "Editing a.py", state := "Workspace: ws", startTimestamp := some 111,
  largeImageKey := "python", largeImageText := "Editing a PYTHON file",
  smallImageKey := "vscode", smallImageText := "Visual Studio Code", instanceFlag := false }

/-- A connected steady state: ready, refresh timer running, `sampleDoc` known. -/
def connectedState : ExtensionState := {
  rpc := true, config := sampleConfig,
  reconnecting := false, reconnectCounter := 0, lastKnownFile := some "/ws/sub/a.py",
  activity := some builtActivity, activityTimer := true, statusBarIcon := none }

/-- The state `startState` after one login failure: counter 1, "2 attempts left" shown. -/
def failedOnceState : ExtensionState :=
  { startState with
    reconnectCounter := 1,
    statusBarIcon := some { text := "$(issue-reopened) Reconnecting: 2 attempts left", command := "", shown := true } }

/-- The state `startState` after two login failures: counter 2, "1 attempt left" shown. -/
def failedTwiceState : ExtensionState :=
  { startState with
    reconnectCounter := 2,
    statusBarIcon := some { text := "$(issue-reopened) Reconnecting: 1 attempt left", command := "", shown := true } }

/-- The state `startState` after three login failures: counter 3, "0 attempts left"
shown (and, per the retry branch, a fourth login attempt already issued). -/
def failedThriceState : ExtensionState :=
  { startState with
    reconnectCounter := 3,
    statusBarIcon := some { text := "$(issue-reopened) Reconnecting: 0 attempts left", command := "", shown := true } }

/-- The sample host environment with no focused editor. -/
def idleEnv : EditorEnv := { sampleEnv with activeTextEditor := none }

/-- The idle environment under an Insiders build of the editor. -/
def insidersIdleEnv : EditorEnv :=
  { sampleEnv with activeTextEditor := none, appName := "Visual Studio Code - Insiders" }

/-- The state `startState` with silent mode on (and, as in `startState`, no status bar
icon yet). -/
def silentNoIconState : ExtensionState :=
  { startState with config := { sampleConfig with silent := true } }

/-- Evaluation of `toFixed2` on a ratio of naturals, computed entirely in `Nat`:
round-half-up of `a/b` to two decimals is `(200 * a + b) / (2 * b)` hundredths. -/
lemma toFixed2_natDiv (a b : Nat) (hb : 0 < b) :
    toFixed2 ((a : ℚ) / (b : ℚ)) =
      toString ((200 * a + b) / (2 * b) / 100) ++ "." ++
        (if (200 * a + b) / (2 * b) % 100 < 10 then "0" ++ toString ((200 * a + b) / (2 * b) % 100)
         else toString ((200 * a + b) / (2 * b) % 100)) := by
  have hb0 : (b : ℚ) ≠ 0 := Nat.cast_ne_zero.mpr hb.ne'
  have h : (a : ℚ) / (b : ℚ) * 100 + 1 / 2 = ((200 * a + b : ℕ) : ℚ) / ((2 * b : ℕ) : ℚ) := by
    push_cast
    field_simp
    ring
  simp only [toFixed2, h, Int.floor_toNat, Nat.floor_div_eq_div, Nat.floor_natCast]

/-- The rational division loop agrees with its `Nat` shadow `sizeLoopN`. -/
lemma sizeLoop_eq_N (fuel : Nat) : ∀ (orig d : Nat),
    sizeLoop fuel ((orig : ℚ) / ((1000 ^ d : ℕ) : ℚ)) d =
      ((orig : ℚ) / ((1000 ^ (sizeLoopN fuel orig d) : ℕ) : ℚ), sizeLoopN fuel orig d) := by
  induction fuel with
  | zero => intro orig d; simp [sizeLoop, sizeLoopN]
  | succ fuel ih =>
    intro orig d
    have hpos : (0 : ℚ) < ((1000 ^ d : ℕ) : ℚ) := by positivity
    have hcast : (1000 : ℚ) * ((1000 ^ d : ℕ) : ℚ) = ((1000 ^ (d + 1) : ℕ) : ℚ) := by
      push_cast
      ring
    have hcond : (1000 < (orig : ℚ) / ((1000 ^ d : ℕ) : ℚ)) ↔ (1000 ^ (d + 1) < orig) := by
      rw [lt_div_iff₀ hpos, hcast, Nat.cast_lt]
    have hdiv : (orig : ℚ) / ((1000 ^ d : ℕ) : ℚ) / 1000 = (orig : ℚ) / ((1000 ^ (d + 1) : ℕ) : ℚ) := by
      rw [div_div, ← hcast]
      ring_nf
    by_cases h : 1000 ^ (d + 1) < orig
    · simp only [sizeLoop, sizeLoopN, if_pos (hcond.mpr h), if_pos h, gt_iff_lt, hdiv]
      exact ih orig (d + 1)
    · simp only [sizeLoop, sizeLoopN, gt_iff_lt,
        if_neg (fun hc => h (hcond.mp hc)), if_neg h]

/-- Evaluation form of `formatFileSize` above the 1000-byte threshold. -/
lemma formatFileSize_eval (orig : Nat) (h : 1000 < orig) :
    formatFileSize orig =
      toFixed2 ((orig : ℚ) / ((1000 ^ (sizeLoopN orig orig 1) : ℕ) : ℚ)) ++
        [" bytes", "kb", "mb", "gb", "tb"].getD (sizeLoopN orig orig 1) "undefined" := by
  have h1 : ((orig : ℚ) / 1000) = (orig : ℚ) / ((1000 ^ 1 : ℕ) : ℚ) := by norm_num
  simp only [formatFileSize, gt_iff_lt, if_pos h, h1, sizeLoop_eq_N]

/-- The function `createButton` only touches the status bar icon: `rpc` is unchanged. -/
@[simp] lemma createButton_rpc (b : Bool) (s : ExtensionState) :
    (createButton b s).rpc = s.rpc := by
  cases h : s.statusBarIcon <;> simp [createButton, h]

/-- The function `createButton` leaves `reconnecting` unchanged. -/
@[simp] lemma createButton_reconnecting (b : Bool) (s : ExtensionState) :
    (createButton b s).reconnecting = s.reconnecting := by
  cases h : s.statusBarIcon <;> simp [createButton, h]

/-- The function `createButton` leaves `reconnectCounter` unchanged. -/
@[simp] lemma createButton_reconnectCounter (b : Bool) (s : ExtensionState) :
    (createButton b s).reconnectCounter = s.reconnectCounter := by
  cases h : s.statusBarIcon <;> simp [createButton, h]

/-- The function `createButton` leaves the config unchanged. -/
@[simp] lemma createButton_config (b : Bool) (s : ExtensionState) :
    (createButton b s).config = s.config := by
  cases h : s.statusBarIcon <;> simp [createButton, h]

/-- The function `setActivity` only touches `activity` and `lastKnownFile`:
the reconnect counter is unchanged. -/
@[simp] lemma setActivity_reconnectCounter (wet : Bool) (env : EditorEnv) (s : ExtensionState) :
    (setActivity wet env s).reconnectCounter = s.reconnectCounter := by
  by_cases hr : s.rpc = false
  · simp [setActivity, hr]
  · cases h : env.activeTextEditor with
    | none => simp [setActivity, hr, h, setActivityFull]
    | some ed =>
      by_cases hl : s.lastKnownFile = some ed.fileName <;>
        simp [setActivity, hr, h, hl, setActivityFull]

/-- The `ready` handler always leaves the reconnect counter at 0. -/
lemma handleReady_reconnectCounter (loud : Bool) (env : EditorEnv) (s : ExtensionState) :
    (handleReady loud env s).1.reconnectCounter = 0 := by
  simp [handleReady, setActivity_reconnectCounter]

/-- Branch lemma: a login failure while reconnecting below the threshold
increments the counter, shows the attempts-remaining button, re-inits the
client, issues a retry, and shows no notice. -/
lemma handleLoginFailure_retry (e : JsError) (s : ExtensionState)
    (h1 : s.reconnecting = true) (h2 : s.reconnectCounter < s.config.reconnectThreshold) :
    handleLoginFailure e s =
      ({ createButton true { s with reconnectCounter := s.reconnectCounter + 1 } with rpc := true },
        true, []) := by
  simp [handleLoginFailure, h1, Nat.not_le.mpr h2, initRPCState]

/-- Branch lemma: a login failure while reconnecting at (or past) the threshold
shows the manual-reconnect button, tears the client down, announces, and does
not retry. -/
lemma handleLoginFailure_exhausted (e : JsError) (s : ExtensionState)
    (h1 : s.reconnecting = true) (h2 : s.config.reconnectThreshold ≤ s.reconnectCounter) :
    handleLoginFailure e s =
      ((announceFailure e (destroyRPC (createButton false s))).1, false,
        (announceFailure e (destroyRPC (createButton false s))).2) := by
  simp [handleLoginFailure, h1, h2]

/-- Invariant of a failure run that stays below the threshold: each failure
adds exactly one to the counter and keeps `reconnecting` and the config. -/
lemma runFailures_spec (es : List JsError) : ∀ (s : ExtensionState),
    s.reconnecting = true →
    s.reconnectCounter + es.length ≤ s.config.reconnectThreshold →
    (runFailures es s).reconnectCounter = s.reconnectCounter + es.length ∧
    (runFailures es s).reconnecting = true ∧
    (runFailures es s).config = s.config := by
  induction es with
  | nil => intro s h1 _; simp [runFailures, h1]
  | cons e es ih =>
    intro s h1 h2
    simp only [List.length_cons] at h2 ⊢
    have hlt : s.reconnectCounter < s.config.reconnectThreshold := by omega
    rw [runFailures, handleLoginFailure_retry e s h1 hlt]
    set t : ExtensionState :=
      { createButton true { s with reconnectCounter := s.reconnectCounter + 1 } with rpc := true }
      with ht
    have h1t : t.reconnecting = true := by simp [ht, h1]
    have hct : t.reconnectCounter = s.reconnectCounter + 1 := by simp [ht]
    have hcft : t.config = s.config := by simp [ht]
    obtain ⟨hc, hr, hcf⟩ := ih t h1t (by rw [hct, hcft]; omega)
    exact ⟨by rw [hc, hct]; omega, hr, by rw [hcf, hcft]⟩

/-- The function `destroyRPC` leaves the config unchanged. -/
@[simp] lemma destroyRPC_config (s : ExtensionState) : (destroyRPC s).config = s.config := by
  by_cases h : s.rpc = false <;> simp [destroyRPC, h]

/-- The function `destroyRPC` leaves the status bar icon unchanged. -/
@[simp] lemma destroyRPC_statusBarIcon (s : ExtensionState) :
    (destroyRPC s).statusBarIcon = s.statusBarIcon := by
  by_cases h : s.rpc = false <;> simp [destroyRPC, h]

/-- Reduction of the announcement tail when not silent. -/
lemma announceFailure_not_silent (e : JsError) (s : ExtensionState)
    (h : s.config.silent = false) :
    announceFailure e s =
      (createButton false s,
        [if jsIncludes e.message "ENOENT" then "No Discord Client detected!"
         else "Couldn't connect to Discord via RPC: " ++ e.str]) := by
  simp [announceFailure, h]

/-- Claim C7: `getFileDetails` is on-demand — without the `\x7bfilesize\x7d`
placeholder the template never triggers a `statSync` call (count 0) and the
size is `null`; and each of the other three facts is `null` whenever its
placeholder is absent from the template. -/
theorem file_details_on_demand (t : String) (env : EditorEnv) (ed : EditorDoc) :
    (jsIncludes t "{filesize}" = false →
      (getFileDetails t env ed).2 = 0 ∧ (getFileDetails t env ed).1.size = none) ∧
    (jsIncludes t "{totallines}" = false → (getFileDetails t env ed).1.totalLines = none) ∧
    (jsIncludes t "{currentline}" = false → (getFileDetails t env ed).1.currentLine = none) ∧
    (jsIncludes t "{currentcolumn}" = false → (getFileDetails t env ed).1.currentColumn = none) := by
  by_cases h0 : t = ""
  · simp [getFileDetails, h0]
  · refine ⟨fun h => ?_, fun h => ?_, fun h => ?_, fun h => ?_⟩ <;>
      simp [getFileDetails, h0, h]

/-- Witness for C7 at a concrete template requesting none of the four facts. -/
theorem file_details_on_demand_witness :
    (getFileDetails "Editing {filename}" sampleEnv sampleDoc).2 = 0 ∧
    (getFileDetails "Editing {filename}" sampleEnv sampleDoc).1.totalLines = none :=
  ⟨((file_details_on_demand "Editing {filename}" sampleEnv sampleDoc).1 (by decide)).1,
    (file_details_on_demand "Editing {filename}" sampleEnv sampleDoc).2.1 (by decide)⟩

/-- Claim C8: the file-size formatter divides repeatedly by 1000 choosing a
unit from bytes/kb/mb/gb/tb, renders with two decimals once scaling occurred
and with the raw integer for the smallest unit; in particular 1,500,000 bytes
renders as "1.50mb" and 800 bytes as "800 bytes" (with one instance for each
remaining unit). -/
theorem file_size_formatting :
    formatFileSize 1500000 = "1.50mb" ∧ formatFileSize 800 = "800 bytes" ∧
    formatFileSize 5000 = "5.00kb" ∧ formatFileSize 2000000000 = "2.00gb" ∧
    formatFileSize 3000000000000 = "3.00tb" := by
  refine ⟨?_, by decide, ?_, ?_, ?_⟩ <;>
  · rw [formatFileSize_eval _ (by norm_num), toFixed2_natDiv _ _ (pow_pos (by norm_num) _)]
    decide

/-- Claim C9: teardown is idempotent — `destroyRPC` twice equals `destroyRPC`
once for every state, and on a state whose client is already null it is a
complete no-op. -/
theorem destroyRPC_idempotent :
    (∀ s : ExtensionState, destroyRPC (destroyRPC s) = destroyRPC s) ∧
    (∀ s : ExtensionState, s.rpc = false → destroyRPC s = s) := by
  constructor
  · intro s
    by_cases h : s.rpc = false <;> simp [destroyRPC, h]
  · intro s h
    simp [destroyRPC, h]

/-- Witness for C9 at concrete states (one with a live client, one without). -/
theorem destroyRPC_idempotent_witness :
    destroyRPC (destroyRPC connectedState) = destroyRPC connectedState ∧
    destroyRPC { connectedState with rpc := false } = { connectedState with rpc := false } :=
  ⟨destroyRPC_idempotent.1 connectedState,
    destroyRPC_idempotent.2 { connectedState with rpc := false } rfl⟩

/-- Claim C10: `setActivity` with no client (`rpc` null) returns the state
completely unchanged — activity, `lastKnownFile`, and every other field. -/
theorem setActivity_noop_without_rpc (wet : Bool) (env : EditorEnv) (s : ExtensionState)
    (h : s.rpc = false) : setActivity wet env s = s := by
  simp [setActivity, h]

/-- Witness for C10 at a concrete disconnected state. -/
theorem setActivity_noop_without_rpc_witness :
    setActivity false sampleEnv { connectedState with rpc := false } =
      { connectedState with rpc := false } :=
  setActivity_noop_without_rpc false sampleEnv { connectedState with rpc := false } rfl

/-- Claim C2: starting a reconnect run with counter 0, after N consecutive
login failures with N at most the threshold the counter equals N, and the next
`ready` event resets it to 0. -/
theorem attempt_counter_tracks_failures (es : List JsError) (s : ExtensionState)
    (h1 : s.reconnecting = true) (h2 : s.reconnectCounter = 0)
    (h3 : es.length ≤ s.config.reconnectThreshold) :
    (runFailures es s).reconnectCounter = es.length ∧
    ∀ (loud : Bool) (env : EditorEnv),
      (handleReady loud env (runFailures es s)).1.reconnectCounter = 0 := by
  obtain ⟨hc, -, -⟩ := runFailures_spec es s h1 (by omega)
  exact ⟨by omega, fun loud env => handleReady_reconnectCounter loud env _⟩

/-- Witness for C2: two failures from the concrete start state leave the
counter at 2, and the subsequent ready event resets it to 0. -/
theorem attempt_counter_tracks_failures_witness :
    (runFailures [errGeneric, errGeneric] startState).reconnectCounter = 2 ∧
    (handleReady true sampleEnv
      (runFailures [errGeneric, errGeneric] startState)).1.reconnectCounter = 0 :=
  ⟨(attempt_counter_tracks_failures [errGeneric, errGeneric] startState rfl rfl (by decide)).1,
    (attempt_counter_tracks_failures [errGeneric, errGeneric] startState rfl rfl
      (by decide)).2 true sampleEnv⟩

/-- Claim C4, amended: the manual reconnect command shows the informational
"Reconnecting to Discord RPC" notice only when not silent, and sets the status
bar text to the reconnecting indicator only when a status bar icon already
exists (it never creates one); the client is re-initialized in every case. -/
theorem reconnect_command_surfacing (s : ExtensionState) :
    (reconnectCommand s).2 = (if s.config.silent then [] else ["Reconnecting to Discord RPC"]) ∧
    (reconnectCommand s).1.statusBarIcon =
      s.statusBarIcon.map (fun b => { b with text := "$(pulse) Reconnecting" }) ∧
    (reconnectCommand s).1.rpc = true := by
  cases hr : s.rpc <;> cases hb : s.statusBarIcon <;> by_cases hs : s.config.silent <;>
    simp [reconnectCommand, destroyRPC, initRPCState, hr, hb, hs]

/-- Counterexample to claim C4 as stated: in silent mode with no pre-existing
status bar icon, the manual reconnect command surfaces NO reconnecting
indication at all — no notice is shown and no status bar item exists. -/
theorem silent_reconnect_no_indication :
    (reconnectCommand silentNoIconState).2 = [] ∧
    (reconnectCommand silentNoIconState).1.statusBarIcon = none := by decide

/-- Claim C5, amended: with no focused editor the build never fails and yields
the idle snapshot — `startTimestamp` null, `largeImageKey = "vscode-big"`
(regardless of the application name; the Insiders distinction exists only for
the small image key), and the idle large-image text. -/
theorem idle_snapshot_shape (wet : Bool) (env : EditorEnv) (s : ExtensionState)
    (h1 : s.rpc = true) (h2 : env.activeTextEditor = none) :
    ((setActivity wet env s).activity.map (·.startTimestamp)) = some none ∧
    ((setActivity wet env s).activity.map (·.largeImageKey)) = some "vscode-big" ∧
    ((setActivity wet env s).activity.map (·.largeImageText)) = some s.config.largeImageIdle := by
  have hr : ¬ s.rpc = false := by simp [h1]
  simp [setActivity, hr, h2, setActivityFull, jsResolveKey]

/-- Witness for C5 at the concrete idle environment. -/
theorem idle_snapshot_shape_witness :
    ((setActivity false idleEnv connectedState).activity.map (·.startTimestamp)) = some none ∧
    ((setActivity false idleEnv connectedState).activity.map (·.largeImageKey)) =
      some "vscode-big" ∧
    ((setActivity false idleEnv connectedState).activity.map (·.largeImageText)) =
      some connectedState.config.largeImageIdle :=
  idle_snapshot_shape false idleEnv connectedState rfl rfl

/-- Counterexample to claim C5 as stated: when the application name indicates
an Insiders build, the idle snapshot's large image key is NOT an Insiders
variant — it is the same "vscode-big" as for the non-Insiders app name (the
app name only switches the small image key, "vscode-insiders" vs "vscode"). -/
theorem idle_large_image_ignores_insiders :
    ((setActivity false insidersIdleEnv startState).activity.map (·.largeImageKey)) =
      some "vscode-big" ∧
    ((setActivity false idleEnv startState).activity.map (·.largeImageKey)) =
      some "vscode-big" ∧
    ((setActivity false insidersIdleEnv startState).activity.map (·.smallImageKey)) =
      some "vscode-insiders" ∧
    ((setActivity false idleEnv startState).activity.map (·.smallImageKey)) =
      some "vscode" := by decide

/-- Claim C6, amended: login-failure notices.  A failure absorbed by the
retry path (reconnecting with attempts remaining) shows NO notice; in silent
mode nothing is shown; otherwise exactly one notice is shown —
"No Discord Client detected!" when the error message carries ENOENT, else the
raw error text prefixed by the connection-failure wording. -/
theorem login_failure_notices (e : JsError) (s : ExtensionState) :
    (s.config.silent = true → (handleLoginFailure e s).2.2 = []) ∧
    (s.reconnecting = true → s.reconnectCounter < s.config.reconnectThreshold →
      (handleLoginFailure e s).2.2 = []) ∧
    (s.config.silent = false →
      (s.reconnecting = false ∨ s.config.reconnectThreshold ≤ s.reconnectCounter) →
      (handleLoginFailure e s).2.2 =
        [if jsIncludes e.message "ENOENT" then "No Discord Client detected!"
         else "Couldn't connect to Discord via RPC: " ++ e.str]) := by
  refine ⟨fun hs => ?_, fun h1 h2 => ?_, fun hs h => ?_⟩
  · by_cases h1 : s.reconnecting = true
    · by_cases h2 : s.config.reconnectThreshold ≤ s.reconnectCounter
      · rw [handleLoginFailure_exhausted e s h1 h2]
        simp [announceFailure, hs]
      · rw [handleLoginFailure_retry e s h1 (by omega)]
    · simp only [Bool.not_eq_true] at h1
      simp [handleLoginFailure, h1, announceFailure, hs]
  · rw [handleLoginFailure_retry e s h1 h2]
  · rcases h with h1 | h2
    · simp [handleLoginFailure, h1, announceFailure_not_silent e s hs]
    · by_cases h1 : s.reconnecting = true
      · rw [handleLoginFailure_exhausted e s h1 h2,
          announceFailure_not_silent e _ (by simp [hs])]
      · simp only [Bool.not_eq_true] at h1
        simp [handleLoginFailure, h1, announceFailure_not_silent e s hs]

/-- Witness for C6: an ENOENT failure outside reconnection shows exactly the
"No Discord Client detected!" notice, and a failure on the retry path shows
none. -/
theorem login_failure_notices_witness :
    (handleLoginFailure errNoClient { startState with reconnecting := false }).2.2 =
      ["No Discord Client detected!"] ∧
    (handleLoginFailure errGeneric startState).2.2 = [] :=
  ⟨((login_failure_notices errNoClient { startState with reconnecting := false }).2.2
      rfl (Or.inl rfl)).trans (by decide),
    (login_failure_notices errGeneric startState).2.1 rfl (by decide)⟩

/-- Counterexample to claim C6 as stated: a non-silent ENOENT login failure
that happens while reconnecting with attempts remaining shows NO notice at all
(the retry branch returns before the announcement code). -/
theorem retry_failure_shows_no_notice :
    startState.config.silent = false ∧
    jsIncludes errNoClient.message "ENOENT" = true ∧
    (handleLoginFailure errNoClient startState).2.2 = [] := by decide

/-- Claim C3, amended: `setActivity` takes the cheap partial-update branch
exactly when an editor is focused on the `lastKnownFile`, REGARDLESS of
whether the call is timer-driven — the `workspaceElapsedTime` argument the
timer passes does not influence branch selection (the result is identical for
both argument values).  The partial update re-renders `details`, `state` and
the small image key and leaves `lastKnownFile`, `startTimestamp`,
`largeImageKey`, both image texts and the instance flag unchanged. -/
theorem same_file_partial_update (wet wet' : Bool) (env : EditorEnv) (ed : EditorDoc)
    (s : ExtensionState) (h1 : s.rpc = true) (h2 : env.activeTextEditor = some ed)
    (h3 : s.lastKnownFile = some ed.fileName) :
    setActivity wet env s = setActivity wet' env s ∧
    (setActivity wet env s).lastKnownFile = s.lastKnownFile ∧
    ((setActivity wet env s).activity.map (·.startTimestamp)) =
      some ((s.activity.getD emptyActivity).startTimestamp) ∧
    ((setActivity wet env s).activity.map (·.largeImageKey)) =
      some ((s.activity.getD emptyActivity).largeImageKey) ∧
    ((setActivity wet env s).activity.map (·.largeImageText)) =
      some ((s.activity.getD emptyActivity).largeImageText) ∧
    ((setActivity wet env s).activity.map (·.smallImageText)) =
      some ((s.activity.getD emptyActivity).smallImageText) ∧
    ((setActivity wet env s).activity.map (·.instanceFlag)) =
      some ((s.activity.getD emptyActivity).instanceFlag) ∧
    ((setActivity wet env s).activity.map (·.details)) =
      some (generateDetails s.config.detailsDebugging s.config.detailsEditing
        s.config.detailsIdle none env s.config) ∧
    ((setActivity wet env s).activity.map (·.state)) =
      some (generateDetails s.config.lowerDetailsDebugging s.config.lowerDetailsEditing
        s.config.lowerDetailsIdle none env s.config) ∧
    ((setActivity wet env s).activity.map (·.smallImageKey)) = some (smallImageKeyOf env) := by
  have hr : ¬ s.rpc = false := by simp [h1]
  simp [setActivity, hr, h2, h3]

/-- Witness for C3 at the concrete connected state: a timer-style call
(`wet = true`) and a focus-style call (`wet = false`) coincide and preserve the
stored start timestamp. -/
theorem same_file_partial_update_witness :
    setActivity true sampleEnv connectedState = setActivity false sampleEnv connectedState ∧
    ((setActivity true sampleEnv connectedState).activity.map (·.startTimestamp)) =
      some ((connectedState.activity.getD emptyActivity).startTimestamp) :=
  ⟨(same_file_partial_update true false sampleEnv sampleDoc connectedState rfl rfl rfl).1,
    (same_file_partial_update true false sampleEnv sampleDoc connectedState rfl rfl rfl).2.2.1⟩

/-- Counterexample to claim C3 as stated: a timer-driven refresh with the
focused file unchanged does NOT perform a full rebuild — it takes the cheap
branch, keeping the stored start timestamp 111 and large image key "python",
whereas the full rebuild at that state (elapsed-time mode off, current time
999) would restamp `startTimestamp` to 999. -/
theorem timer_tick_same_file_partial_update :
    ((timerTick sampleEnv connectedState).activity.map (·.startTimestamp)) = some (some 111) ∧
    ((timerTick sampleEnv connectedState).activity.map (·.largeImageKey)) = some "python" ∧
    sampleEnv.now = 999 ∧
    ((setActivityFull connectedState.config.workspaceElapsedTime sampleEnv
        connectedState).activity.map (·.startTimestamp)) = some (some 999) ∧
    timerTick sampleEnv connectedState ≠
      setActivityFull connectedState.config.workspaceElapsedTime sampleEnv connectedState := by
  decide

/-- Claim C1, amended: with threshold 3 and a reconnect run starting at
counter 0, the first three consecutive failures each issue a retry (so a
fourth login attempt IS made — the guard `reconnectCounter >= threshold` is
checked before the increment); it is the FOURTH consecutive failure that issues
no further attempt and switches the status indicator to the manual-reconnect
affordance ("Reconnect to Discord" bound to the reconnect command).  Stated
for arbitrary failure errors. -/
theorem reconnect_stops_after_fourth_failure (e1 e2 e3 e4 : JsError) :
    totalRetries [e1, e2, e3] startState = 3 ∧
    (handleLoginFailure e4 (runFailures [e1, e2, e3] startState)).2.1 = false ∧
    ((handleLoginFailure e4
        (runFailures [e1, e2, e3] startState)).1.statusBarIcon.map (·.text)) =
      some "$(plug) Reconnect to Discord" ∧
    ((handleLoginFailure e4
        (runFailures [e1, e2, e3] startState)).1.statusBarIcon.map (·.command)) =
      some "discord.reconnect" := by
  have e1step : ∀ e : JsError, handleLoginFailure e startState = (failedOnceState, true, []) :=
    fun e => (handleLoginFailure_retry e startState rfl (by decide)).trans (by decide)
  have e2step : ∀ e : JsError,
      handleLoginFailure e failedOnceState = (failedTwiceState, true, []) :=
    fun e => (handleLoginFailure_retry e failedOnceState rfl (by decide)).trans (by decide)
  have e3step : ∀ e : JsError,
      handleLoginFailure e failedTwiceState = (failedThriceState, true, []) :=
    fun e => (handleLoginFailure_retry e failedTwiceState rfl (by decide)).trans (by decide)
  have e4step := handleLoginFailure_exhausted e4 failedThriceState rfl (by decide)
  have hrun : runFailures [e1, e2, e3] startState = failedThriceState := by
    simp [runFailures, e1step, e2step, e3step]
  refine ⟨?_, ?_, ?_, ?_⟩
  · simp [totalRetries, e1step, e2step, e3step]
  · rw [hrun, e4step]
  · rw [hrun, e4step, announceFailure_not_silent e4 _ (by decide)]
    exact (by decide :
      ((createButton false (destroyRPC (createButton false
        failedThriceState))).statusBarIcon.map (·.text)) = some "$(plug) Reconnect to Discord")
  · rw [hrun, e4step, announceFailure_not_silent e4 _ (by decide)]
    exact (by decide :
      ((createButton false (destroyRPC (createButton false
        failedThriceState))).statusBarIcon.map (·.command)) = some "discord.reconnect")

/-- Counterexample to claim C1 as stated: after exactly three consecutive
failures (threshold 3, counter from 0) a retry HAS been issued on the third
failure — so a fourth login attempt is made — and the status indicator still
shows the attempts-remaining display ("0 attempts left"), not the
manual-reconnect affordance. -/
theorem reconnect_third_failure_retries :
    totalRetries [errGeneric, errGeneric, errGeneric] startState = 3 ∧
    (handleLoginFailure errGeneric (runFailures [errGeneric, errGeneric] startState)).2.1 =
      true ∧
    ((runFailures [errGeneric, errGeneric, errGeneric] startState).statusBarIcon.map
      (·.text)) = some "$(issue-reopened) Reconnecting: 0 attempts left" ∧
    ((runFailures [errGeneric, errGeneric, errGeneric] startState).statusBarIcon.map
      (·.text)) ≠ some "$(plug) Reconnect to Discord" := by
  decide
